import Mathlib

/-!
Shallow embedding of the opcache-exporter collector core
(`cmd/exporter/exporter.go`), together with theorems checking the
natural-language specification against it.

Conventions of the embedding:
* Go `float64` sample values are modelled as `Rat`; the code never does
  arithmetic on them beyond `float64(int64)` casts and pass-through, so
  rational values capture the value flow exactly.
* The FastCGI network round trip is an oracle `world : FCGIRequest → FCGIResult`
  supplied to `getOpcacheStatus`; `json.Unmarshal` into the status record is an
  oracle `unmarshal : String → Option OPcacheStatus` (all-or-nothing decode).
* A Go `nil`-pointer dereference (panic) is modelled as `none` in an `Option`
  codomain.
* `prometheus.Desc`, `prometheus.BuildFQName` and Go `net/url.Parse` are
  external collaborators; they are modelled just deeply enough for the
  behaviour the exporter code relies on.
-/

/-- Model of `prometheus.Desc`: fully-qualified name, help string, variable
label names and constant label pairs, as produced by `prometheus.NewDesc`. -/
structure Desc where
  fqName : String
  help : String
  variableLabels : List String
  constLabels : List (String × String)
deriving DecidableEq

/-- Model of `prometheus.BuildFQName` (external collaborator): joins the
non-empty parts of namespace, subsystem and name with `_`. -/
def BuildFQName (ns sub name : String) : String :=
  if name = "" then ""
  else if ns ≠ "" ∧ sub ≠ "" then ns ++ "_" ++ sub ++ "_" ++ name
  else if ns ≠ "" then ns ++ "_" ++ name
  else if sub ≠ "" then sub ++ "_" ++ name
  else name

/-- The metric namespace constant `namespace = "opcache"` of `exporter.go`. -/
def metricNamespace : String := "opcache"

/-- `newMetric` of `exporter.go`: a descriptor named `opcache_<metricName>`
with a single constant label `fcgi_uri`. -/
def newMetric (metricName metricDesc fcgiURI : String) : Desc :=
  { fqName := BuildFQName metricNamespace "" metricName
    help := metricDesc
    variableLabels := []
    constLabels := [("fcgi_uri", fcgiURI)] }

/-- `boolMetric` of `exporter.go`: `map[bool]float64{true: 1, false: 0}[value]`. -/
def boolMetric (value : Bool) : Rat :=
  if value then 1 else 0

/-- `intMetric` of `exporter.go`: `float64(value)`. -/
def intMetric (value : Int) : Rat :=
  (value : Rat)

/-- Modelled from the spec: the memory-usage sub-record of the decoded status
(`status.go` of the repository, not under `src/`): used/free/wasted bytes and a
pre-computed wasted-percentage ratio.  Field names follow their uses in
`Exporter.Collect`. -/
structure StatusMemoryUsage where
  UsedMemory : Int
  FreeMemory : Int
  WastedMemory : Int
  CurrentWastedPercentage : Rat
deriving DecidableEq

/-- Modelled from the spec: the interned-strings sub-record (`status.go`, not
under `src/`): buffer size, used/free memory and string count. -/
structure StatusInternedStringsUsage where
  BufferSize : Int
  UsedMemory : Int
  FreeMemory : Int
  NumberOfStrings : Int
deriving DecidableEq

/-- Modelled from the spec: the statistics sub-record (`status.go`, not under
`src/`): cached script/key counts, hit/miss/restart counters, timestamps and
two pre-computed ratios.  Field names follow their uses in `Exporter.Collect`. -/
structure StatusStatistics where
  NumCachedScripts : Int
  NumCachedKeys : Int
  MaxCachedKeys : Int
  Hits : Int
  StartTime : Int
  LastRestartTime : Int
  OOMRestarts : Int
  HashRestarts : Int
  ManualRestarts : Int
  Misses : Int
  BlacklistMisses : Int
  BlacklistMissRatio : Rat
  OPcacheHitRate : Rat
deriving DecidableEq

/-- Modelled from the spec: the `OPcacheStatus` record decoded from the remote
JSON (`status.go`, not under `src/`): four boolean flags and the three
sub-records. -/
structure OPcacheStatus where
  OPcacheEnabled : Bool
  CacheFull : Bool
  RestartPending : Bool
  RestartInProgress : Bool
  MemoryUsage : StatusMemoryUsage
  InternedStringsUsage : StatusInternedStringsUsage
  OPcacheStatistics : StatusStatistics
deriving DecidableEq

/-- `new(OPcacheStatus)`: the all-zero / all-false snapshot Go allocates. -/
def zeroOPcacheStatus : OPcacheStatus :=
  { OPcacheEnabled := false
    CacheFull := false
    RestartPending := false
    RestartInProgress := false
    MemoryUsage := ⟨0, 0, 0, 0⟩
    InternedStringsUsage := ⟨0, 0, 0, 0⟩
    OPcacheStatistics := ⟨0, 0, 0, 0, 0, 0, 0, 0, 0, 0, 0, 0, 0⟩ }

/-- Model of Go `*url.URL`, restricted to the three fields the exporter reads. -/
structure URL where
  Scheme : String
  Host : String
  Path : String
deriving DecidableEq

/-- Finds the first occurrence of the scheme separator `://` in a character
list; returns the characters before it and the characters after it. -/
def splitSchemeSep : List Char → Option (List Char × List Char)
  | [] => none
  | c :: rest =>
    if [':', '/', '/'].isPrefixOf (c :: rest) then some ([], rest.drop 2)
    else match splitSchemeSep rest with
      | none => none
      | some (pre, post) => some (c :: pre, post)

/-- Model of Go `strings.Contains(s, "://")` as used in `NewExporter`. -/
def containsSchemeSep (s : String) : Bool :=
  (splitSchemeSep s.toList).isSome

/-- Modelled from the spec: Go `net/url.Parse` (external collaborator),
restricted to the Target URI grammar of the spec (`scheme://host[:port]` or
`scheme:///path`).  The text before `://` is the scheme; of the remainder, the
part before the first `/` is the host and the rest is the path.  A blank in
the host is rejected, modelling `net/url`'s invalid-character error; on error
the URL result is absent, as Go returns a nil URL alongside the error. -/
def urlParse (s : String) : Except String URL :=
  match splitSchemeSep s.toList with
  | none => .error ("parse " ++ s ++ ": missing scheme separator")
  | some (schemeChars, rest) =>
    let hostChars := rest.takeWhile (fun c => c ≠ '/')
    let pathChars := rest.dropWhile (fun c => c ≠ '/')
    if hostChars.contains ' ' then
      .error ("parse " ++ s ++ ": invalid character in host name")
    else
      .ok ⟨String.mk schemeChars, String.mk hostChars, String.mk pathChars⟩

/-- The error component of a parse result, matching Go's `(url, err)` pair. -/
def exceptError (r : Except String URL) : Option String :=
  match r with
  | .error e => some e
  | .ok _ => none

/-- The URL component of a parse result; absent on error (Go's nil `*url.URL`). -/
def exceptURL (r : Except String URL) : Option URL :=
  match r with
  | .error _ => none
  | .ok u => some u

/-- Model of the `Exporter` struct of `exporter.go`: the parsed URI (absent
models Go's nil pointer after a parse failure), the script path and the 25
descriptor fields.  The `sync.RWMutex` field is runtime state outside this
functional embedding. -/
structure Exporter where
  uri : Option URL
  scriptPath : String
  enabledDesc : Desc
  cacheFullDesc : Desc
  restartPendingDesc : Desc
  restartInProgressDesc : Desc
  memoryUsageUsedMemoryDesc : Desc
  memoryUsageFreeMemoryDesc : Desc
  memoryUsageWastedMemoryDesc : Desc
  memoryUsageCurrentWastedPercentageDesc : Desc
  internedStringsUsageBufferSizeDesc : Desc
  internedStringsUsageUsedMemoryDesc : Desc
  internedStringsUsageUsedFreeMemory : Desc
  internedStringsUsageUsedNumerOfStrings : Desc
  statisticsNumCachedScripts : Desc
  statisticsNumCachedKeys : Desc
  statisticsMaxCachedKeys : Desc
  statisticsHits : Desc
  statisticsStartTime : Desc
  statisticsLastRestartTime : Desc
  statisticsOOMRestarts : Desc
  statisticsHashRestarts : Desc
  statisticsManualRestarts : Desc
  statisticsMisses : Desc
  statisticsBlacklistMisses : Desc
  statisticsBlacklistMissRatio : Desc
  statisticsHitRate : Desc
deriving DecidableEq

/-- `NewExporter` of `exporter.go`: a bare URI without `://` is prefixed with
`tcp://`; the (possibly rewritten) URI is parsed and used — in its rewritten
form — as the `fcgi_uri` label of every descriptor.  The parse error, if any,
is returned alongside the always-constructed exporter. -/
def NewExporter (rawUri scriptPath : String) : Exporter × Option String :=
  let rawUri := if containsSchemeSep rawUri then rawUri else "tcp://" ++ rawUri
  let parsedUri := urlParse rawUri
  ({ uri := exceptURL parsedUri
     scriptPath := scriptPath
     enabledDesc := newMetric "enabled" "Is OPcache enabled." rawUri
     cacheFullDesc := newMetric "cache_full" "Is OPcache full." rawUri
     restartPendingDesc := newMetric "restart_pending" "Is restart pending." rawUri
     restartInProgressDesc := newMetric "restart_in_progress" "Is restart in progress." rawUri
     memoryUsageUsedMemoryDesc := newMetric "memory_usage_used_memory" "OPcache used memory." rawUri
     memoryUsageFreeMemoryDesc := newMetric "memory_usage_free_memory" "OPcache free memory." rawUri
     memoryUsageWastedMemoryDesc := newMetric "memory_usage_wasted_memory" "OPcache wasted memory." rawUri
     memoryUsageCurrentWastedPercentageDesc := newMetric "memory_usage_current_wasted_percentage" "OPcache current wasted percentage." rawUri
     internedStringsUsageBufferSizeDesc := newMetric "interned_strings_usage_buffer_size" "OPcache interned string buffer size." rawUri
     internedStringsUsageUsedMemoryDesc := newMetric "interned_strings_usage_used_memory" "OPcache interned string used memory." rawUri
     internedStringsUsageUsedFreeMemory := newMetric "interned_strings_usage_free_memory" "OPcache interned string free memory." rawUri
     internedStringsUsageUsedNumerOfStrings := newMetric "interned_strings_usage_number_of_strings" "OPcache interned string number of strings." rawUri
     statisticsNumCachedScripts := newMetric "statistics_num_cached_scripts" "OPcache statistics, number of cached scripts." rawUri
     statisticsNumCachedKeys := newMetric "statistics_num_cached_keys" "OPcache statistics, number of cached keys." rawUri
     statisticsMaxCachedKeys := newMetric "statistics_max_cached_keys" "OPcache statistics, max cached keys." rawUri
     statisticsHits := newMetric "statistics_hits" "OPcache statistics, hits." rawUri
     statisticsStartTime := newMetric "statistics_start_time" "OPcache statistics, start time." rawUri
     statisticsLastRestartTime := newMetric "statistics_last_restart_time" "OPcache statistics, last restart time" rawUri
     statisticsOOMRestarts := newMetric "statistics_oom_restarts" "OPcache statistics, oom restarts" rawUri
     statisticsHashRestarts := newMetric "statistics_hash_restarts" "OPcache statistics, hash restarts" rawUri
     statisticsManualRestarts := newMetric "statistics_manual_restarts" "OPcache statistics, manual restarts" rawUri
     statisticsMisses := newMetric "statistics_misses" "OPcache statistics, misses" rawUri
     statisticsBlacklistMisses := newMetric "statistics_blacklist_misses" "OPcache statistics, blacklist misses" rawUri
     statisticsBlacklistMissRatio := newMetric "statistics_blacklist_miss_ratio" "OPcache statistics, blacklist miss ratio" rawUri
     statisticsHitRate := newMetric "statistics_hit_rate" "OPcache statistics, opcache hit rate" rawUri },
   exceptError parsedUri)

/-- `Exporter.Describe` of `exporter.go`: the 25 descriptors, in the order the
method sends them on its channel. -/
def Describe (e : Exporter) : List Desc :=
  [ e.enabledDesc
  , e.cacheFullDesc
  , e.restartPendingDesc
  , e.restartInProgressDesc
  , e.memoryUsageUsedMemoryDesc
  , e.memoryUsageFreeMemoryDesc
  , e.memoryUsageWastedMemoryDesc
  , e.memoryUsageCurrentWastedPercentageDesc
  , e.internedStringsUsageBufferSizeDesc
  , e.internedStringsUsageUsedMemoryDesc
  , e.internedStringsUsageUsedFreeMemory
  , e.internedStringsUsageUsedNumerOfStrings
  , e.statisticsNumCachedScripts
  , e.statisticsNumCachedKeys
  , e.statisticsMaxCachedKeys
  , e.statisticsHits
  , e.statisticsStartTime
  , e.statisticsLastRestartTime
  , e.statisticsOOMRestarts
  , e.statisticsHashRestarts
  , e.statisticsManualRestarts
  , e.statisticsMisses
  , e.statisticsBlacklistMisses
  , e.statisticsBlacklistMissRatio
  , e.statisticsHitRate ]

/-- Model of `prometheus.ValueType`. -/
inductive ValueType where
  | CounterValue
  | GaugeValue
  | UntypedValue
deriving DecidableEq

/-- Model of one sample produced by `prometheus.MustNewConstMetric`. -/
structure ConstMetric where
  desc : Desc
  valueType : ValueType
  value : Rat
deriving DecidableEq

/-- One FastCGI request as issued by `getOpcacheStatus` through
`fcgiclient.Dial(network, address)` followed by `client.Get(env)`:
`Get` sends the parameter environment and no request body. -/
structure FCGIRequest where
  network : String
  address : String
  env : List (String × String)
  body : Option String
deriving DecidableEq

/-- Oracle outcome of one FastCGI round trip: failure at dial
(`fcgiclient.Dial`), at request time (`client.Get`), while reading the body
(`io.ReadAll`), or a fully read response body. -/
inductive FCGIResult where
  | dialError (msg : String)
  | requestError (msg : String)
  | readError (msg : String)
  | response (body : String)
deriving DecidableEq

/-- `Exporter.getOpcacheStatus` of `exporter.go`, for an exporter whose URI
parsed to `u`: dial `u.Scheme` at `u.Path` when the scheme is `unix` and at
`u.Host` otherwise, send the single-entry environment binding
`SCRIPT_FILENAME` to the script path with no body, and decode the response
body; a decode failure turns the raw body verbatim into the error
(`errors.New(string(content))`).  Returns Go's `(*OPcacheStatus, error)` pair. -/
def getOpcacheStatus (u : URL) (scriptPath : String)
    (world : FCGIRequest → FCGIResult)
    (unmarshal : String → Option OPcacheStatus) :
    Option OPcacheStatus × Option String :=
  let host := if u.Scheme = "unix" then u.Path else u.Host
  match world ⟨u.Scheme, host, [("SCRIPT_FILENAME", scriptPath)], none⟩ with
  | .dialError m => (none, some m)
  | .requestError m => (none, some m)
  | .readError m => (none, some m)
  | .response content =>
    match unmarshal content with
    | none => (none, some content)
    | some status => (some status, none)

/-- The 24 samples `Exporter.Collect` sends for a given status, in source
order (lines 157–180 of `exporter.go`).  Note that the code sends no sample
for `internedStringsUsageUsedNumerOfStrings`. -/
def collectSamples (e : Exporter) (status : OPcacheStatus) : List ConstMetric :=
  [ ⟨e.enabledDesc, .GaugeValue, boolMetric status.OPcacheEnabled⟩
  , ⟨e.cacheFullDesc, .GaugeValue, boolMetric status.CacheFull⟩
  , ⟨e.restartPendingDesc, .GaugeValue, boolMetric status.RestartPending⟩
  , ⟨e.restartInProgressDesc, .GaugeValue, boolMetric status.RestartInProgress⟩
  , ⟨e.memoryUsageUsedMemoryDesc, .GaugeValue, intMetric status.MemoryUsage.UsedMemory⟩
  , ⟨e.memoryUsageFreeMemoryDesc, .GaugeValue, intMetric status.MemoryUsage.FreeMemory⟩
  , ⟨e.memoryUsageWastedMemoryDesc, .GaugeValue, intMetric status.MemoryUsage.WastedMemory⟩
  , ⟨e.memoryUsageCurrentWastedPercentageDesc, .GaugeValue, status.MemoryUsage.CurrentWastedPercentage⟩
  , ⟨e.internedStringsUsageBufferSizeDesc, .GaugeValue, intMetric status.InternedStringsUsage.BufferSize⟩
  , ⟨e.internedStringsUsageUsedMemoryDesc, .GaugeValue, intMetric status.InternedStringsUsage.UsedMemory⟩
  , ⟨e.internedStringsUsageUsedFreeMemory, .GaugeValue, intMetric status.InternedStringsUsage.FreeMemory⟩
  , ⟨e.statisticsNumCachedScripts, .GaugeValue, intMetric status.OPcacheStatistics.NumCachedScripts⟩
  , ⟨e.statisticsNumCachedKeys, .GaugeValue, intMetric status.OPcacheStatistics.NumCachedKeys⟩
  , ⟨e.statisticsMaxCachedKeys, .GaugeValue, intMetric status.OPcacheStatistics.MaxCachedKeys⟩
  , ⟨e.statisticsHits, .GaugeValue, intMetric status.OPcacheStatistics.Hits⟩
  , ⟨e.statisticsStartTime, .GaugeValue, intMetric status.OPcacheStatistics.StartTime⟩
  , ⟨e.statisticsLastRestartTime, .GaugeValue, intMetric status.OPcacheStatistics.LastRestartTime⟩
  , ⟨e.statisticsOOMRestarts, .GaugeValue, intMetric status.OPcacheStatistics.OOMRestarts⟩
  , ⟨e.statisticsHashRestarts, .GaugeValue, intMetric status.OPcacheStatistics.HashRestarts⟩
  , ⟨e.statisticsManualRestarts, .GaugeValue, intMetric status.OPcacheStatistics.ManualRestarts⟩
  , ⟨e.statisticsMisses, .GaugeValue, intMetric status.OPcacheStatistics.Misses⟩
  , ⟨e.statisticsBlacklistMisses, .GaugeValue, intMetric status.OPcacheStatistics.BlacklistMisses⟩
  , ⟨ e.statisticsBlacklistMissRatio, .GaugeValue, status.OPcacheStatistics.BlacklistMissRatio⟩
  , ⟨e.statisticsHitRate, .GaugeValue, status.OPcacheStatistics.OPcacheHitRate⟩ ]

/-- `Exporter.Collect` of `exporter.go` (its mutex acquisition is runtime
behaviour outside this functional embedding): poll the target; on a poll
error, log it (second component) and substitute `new(OPcacheStatus)`; then
send the samples of `collectSamples`.  The result is `none` exactly when Go
would dereference a nil pointer (nil URI, or a nil status with nil error). -/
def Collect (e : Exporter) (world : FCGIRequest → FCGIResult)
    (unmarshal : String → Option OPcacheStatus) :
    Option (List ConstMetric × List String) :=
  match e.uri with
  | none => none
  | some u =>
    match getOpcacheStatus u e.scriptPath world unmarshal with
    | (_, some err) => some (collectSamples e zeroOPcacheStatus, [err])
    | (some status, none) => some (collectSamples e status, [])
    | (none, none) => none

/-- A concrete exporter for the default target, used to evaluate the code at
explicit inputs. -/
def exampleExporter : Exporter :=
  (NewExporter "tcp://127.0.0.1:9000" "/status.php").1

/-- The parsed URL of `exampleExporter`. -/
def exampleURL : URL :=
  ⟨"tcp", "127.0.0.1:9000", ""⟩

/-- A world oracle whose response body is fixed. -/
def zeroWorld : FCGIRequest → FCGIResult :=
  fun _ => FCGIResult.response "\x7b\x7d"

/-- An unmarshal oracle that decodes every body to the all-zero snapshot. -/
def zeroUnmarshal : String → Option OPcacheStatus :=
  fun _ => some zeroOPcacheStatus

/-- The non-integral value 67/10, as an explicit reduced fraction. -/
def exampleWastedPercentage : Rat :=
  ⟨67, 10, by norm_num, by norm_num [Int.natAbs]⟩

/-- The non-integral value 99/8, as an explicit reduced fraction. -/
def exampleMissRatioValue : Rat :=
  ⟨99, 8, by norm_num, by norm_num [Int.natAbs]⟩

/-- The non-integral value 901/10, as an explicit reduced fraction. -/
def exampleHitRateValue : Rat :=
  ⟨901, 10, by norm_num, by norm_num [Int.natAbs]⟩

/-- A snapshot with pairwise distinct, recognizable field values; the
interned-strings string count is 777 and no other field is 777, and the three
ratio fields are non-integral. -/
def exampleSnapshot : OPcacheStatus :=
  { OPcacheEnabled := true
    CacheFull := false
    RestartPending := true
    RestartInProgress := false
    MemoryUsage := ⟨11, 12, 13, exampleWastedPercentage⟩
    InternedStringsUsage := ⟨21, 22, 23, 777⟩
    OPcacheStatistics :=
      ⟨31, 32, 33, 34, 35, 36, 37, 38, 39, 40, 41,
       exampleMissRatioValue, exampleHitRateValue⟩ }

/-- C1: claimed — every call to Collect emits exactly 25 samples in 1:1
bijection with the 25 descriptors of Describe.  The code violates this:
Describe enumerates 25 descriptors, but Collect sends only 24 samples — the
`interned_strings_usage_number_of_strings` descriptor is described yet never
emitted (there is no send for it between lines 167 and 168 of `exporter.go`).
Evaluated here on the all-zero snapshot at the default target. -/
theorem collect_emits_24_of_25_descriptors :
    (Describe exampleExporter).length = 25 ∧
    Collect exampleExporter zeroWorld zeroUnmarshal
      = some (collectSamples exampleExporter zeroOPcacheStatus, []) ∧
    (collectSamples exampleExporter zeroOPcacheStatus).length = 24 ∧
    exampleExporter.internedStringsUsageUsedNumerOfStrings ∈ Describe exampleExporter ∧
    exampleExporter.internedStringsUsageUsedNumerOfStrings ∉
      (collectSamples exampleExporter zeroOPcacheStatus).map ConstMetric.desc := by
  refine ⟨rfl, by decide, rfl, by decide, by decide⟩

/-- C6: claimed — Collect maps each snapshot field by the fixed rule
(booleans to 1/0, integer counters to their numeric value, the three ratios
passed through unmodified) and every emitted sample is a gauge.  The rules do
hold for every emitted sample, but the `NumberOfStrings` field is not mapped
at all: with that field set to 777 (and no other field 777), no emitted value
is 777, so the code emits 24 gauge samples instead of one per field. -/
theorem collect_value_rules_but_number_of_strings_missing :
    ((collectSamples exampleExporter exampleSnapshot).map ConstMetric.valueType
      = List.replicate 24 ValueType.GaugeValue) ∧
    ((collectSamples exampleExporter exampleSnapshot).map ConstMetric.value
      = [1, 0, 1, 0, 11, 12, 13, exampleWastedPercentage, 21, 22, 23,
         31, 32, 33, 34, 35, 36, 37, 38, 39, 40, 41,
         exampleMissRatioValue, exampleHitRateValue]) ∧
    exampleSnapshot.InternedStringsUsage.NumberOfStrings = 777 ∧
    (777 : Rat) ∉ (collectSamples exampleExporter exampleSnapshot).map ConstMetric.value := by
  refine ⟨rfl, by decide, rfl, by decide⟩

/-- Prefixing `tcp://` always makes the scheme separator present, for any
suffix. -/
theorem containsSchemeSep_tcp_prepend (s : String) :
    containsSchemeSep ("tcp://" ++ s) = true := by
  obtain ⟨data⟩ := s
  have h : ("tcp://" ++ String.mk data).toList
      = 't' :: 'c' :: 'p' :: ':' :: '/' :: '/' :: data := rfl
  unfold containsSchemeSep
  rw [h]
  simp [splitSchemeSep, List.isPrefixOf]

/-- C2 counterexample: the claim says the `fcgi_uri` label of a bare
`host:port` target keeps the original pre-normalization string, distinct from
the `tcp://host:port` form's label.  In the code the label is the normalized
URI: for input `localhost:9000` the label reads `tcp://localhost:9000`, equal
to the `tcp://` form's label and different from the original string. -/
theorem bare_uri_label_is_normalized :
    (NewExporter "localhost:9000" "/s").1.enabledDesc.constLabels
      = [("fcgi_uri", "tcp://localhost:9000")] ∧
    (NewExporter "localhost:9000" "/s").1.enabledDesc
      = (NewExporter "tcp://localhost:9000" "/s").1.enabledDesc ∧
    ("tcp://localhost:9000" : String) ≠ "localhost:9000" := by
  refine ⟨by decide, by decide, by decide⟩

/-- C2 (amended): a bare `host:port` URI (no `://`) is normalized to
`tcp://host:port` before parsing and descriptor construction, so the exporter
it yields is identical in every observable way to the one for the `tcp://`
form — same dial behaviour and the same (normalized) `fcgi_uri` label value,
rather than a preserved distinct original string. -/
theorem bare_uri_exporter_equals_tcp_form :
    ∀ (hostport scriptPath : String),
      containsSchemeSep hostport = false →
      NewExporter hostport scriptPath = NewExporter ("tcp://" ++ hostport) scriptPath := by
  intro hp sp hns
  unfold NewExporter
  rw [hns, containsSchemeSep_tcp_prepend hp]
  simp

/-- Witness for C2 (amended) at the concrete bare target `localhost:9000`. -/
theorem bare_uri_exporter_equals_tcp_form_witness :
    containsSchemeSep "localhost:9000" = false ∧
    NewExporter "localhost:9000" "/s" = NewExporter ("tcp://" ++ "localhost:9000") "/s" :=
  ⟨by decide, bare_uri_exporter_equals_tcp_form "localhost:9000" "/s" (by decide)⟩

/-- Unfolding of Collect once the URI is known to be present. -/
theorem collect_eq_of_uri (e : Exporter) (u : URL) (world : FCGIRequest → FCGIResult)
    (unmarshal : String → Option OPcacheStatus) (hu : e.uri = some u) :
    Collect e world unmarshal
      = (match getOpcacheStatus u e.scriptPath world unmarshal with
         | (_, some err) => some (collectSamples e zeroOPcacheStatus, [err])
         | (some status, none) => some (collectSamples e status, [])
         | (none, none) => none) := by
  unfold Collect
  rw [hu]

/-- C3: on every poll error, Collect logs exactly that error, substitutes the
all-zero snapshot, emits the full sample list it always emits (all values 0,
all gauges) and produces a result (no panic, no error surfaced): the Go
method has no error return at all, so a `some` result is the only way a call
can end.  The descriptor list of the emitted samples is the same as for any
successfully decoded snapshot. -/
theorem collect_error_path_substitutes_zero :
    ∀ (e : Exporter) (u : URL) (world : FCGIRequest → FCGIResult)
      (unmarshal : String → Option OPcacheStatus) (err : String),
      e.uri = some u →
      (getOpcacheStatus u e.scriptPath world unmarshal).2 = some err →
      Collect e world unmarshal = some (collectSamples e zeroOPcacheStatus, [err]) ∧
      (collectSamples e zeroOPcacheStatus).map ConstMetric.value
        = List.replicate 24 0 ∧
      (collectSamples e zeroOPcacheStatus).map ConstMetric.valueType
        = List.replicate 24 ValueType.GaugeValue ∧
      ∀ s : OPcacheStatus,
        (collectSamples e s).map ConstMetric.desc
          = (collectSamples e zeroOPcacheStatus).map ConstMetric.desc := by
  intro e u world unmarshal err hu herr
  refine ⟨?_, rfl, rfl, fun s => rfl⟩
  have hpair : getOpcacheStatus u e.scriptPath world unmarshal
      = ((getOpcacheStatus u e.scriptPath world unmarshal).1, some err) := by
    rw [← herr]
  rw [collect_eq_of_uri e u world unmarshal hu, hpair]
  cases (getOpcacheStatus u e.scriptPath world unmarshal).1 with
  | none => rfl
  | some s => rfl

/-- Witness for C3: a refused dial against the default target yields the
all-zero emission plus a single log line. -/
theorem collect_error_path_substitutes_zero_witness :
    exampleExporter.uri = some exampleURL ∧
    (getOpcacheStatus exampleURL exampleExporter.scriptPath
        (fun _ => FCGIResult.dialError "connection refused") zeroUnmarshal).2
      = some "connection refused" ∧
    Collect exampleExporter (fun _ => FCGIResult.dialError "connection refused") zeroUnmarshal
      = some (collectSamples exampleExporter zeroOPcacheStatus, ["connection refused"]) :=
  ⟨by decide, rfl,
    (collect_error_path_substitutes_zero exampleExporter exampleURL
      (fun _ => FCGIResult.dialError "connection refused") zeroUnmarshal
      "connection refused" (by decide) rfl).1⟩

/-- Unfolding of getOpcacheStatus to its single world interaction. -/
theorem getOpcacheStatus_eq (u : URL) (sp : String)
    (world : FCGIRequest → FCGIResult) (unmarshal : String → Option OPcacheStatus) :
    getOpcacheStatus u sp world unmarshal
      = (match world ⟨u.Scheme, if u.Scheme = "unix" then u.Path else u.Host,
                      [("SCRIPT_FILENAME", sp)], none⟩ with
         | .dialError m => (none, some m)
         | .requestError m => (none, some m)
         | .readError m => (none, some m)
         | .response content =>
           match unmarshal content with
           | none => (none, some content)
           | some status => (some status, none)) := rfl

/-- C5: getOpcacheStatus returns a snapshot exactly when it returns no error
(never a partial result, never both), every failure path — dial, request,
read, decode — returns no snapshot together with an error, and on a decode
failure the error is the raw response body verbatim. -/
theorem getOpcacheStatus_all_or_nothing :
    ∀ (u : URL) (sp : String) (world : FCGIRequest → FCGIResult)
      (unmarshal : String → Option OPcacheStatus),
      ((getOpcacheStatus u sp world unmarshal).1.isSome ↔
        (getOpcacheStatus u sp world unmarshal).2 = none) ∧
      (∀ m : String,
        world ⟨u.Scheme, if u.Scheme = "unix" then u.Path else u.Host,
               [("SCRIPT_FILENAME", sp)], none⟩ = FCGIResult.dialError m →
        getOpcacheStatus u sp world unmarshal = (none, some m)) ∧
      (∀ m : String,
        world ⟨u.Scheme, if u.Scheme = "unix" then u.Path else u.Host,
               [("SCRIPT_FILENAME", sp)], none⟩ = FCGIResult.requestError m →
        getOpcacheStatus u sp world unmarshal = (none, some m)) ∧
      (∀ m : String,
        world ⟨u.Scheme, if u.Scheme = "unix" then u.Path else u.Host,
               [("SCRIPT_FILENAME", sp)], none⟩ = FCGIResult.readError m →
        getOpcacheStatus u sp world unmarshal = (none, some m)) ∧
      (∀ b : String,
        world ⟨u.Scheme, if u.Scheme = "unix" then u.Path else u.Host,
               [("SCRIPT_FILENAME", sp)], none⟩ = FCGIResult.response b →
        unmarshal b = none →
        getOpcacheStatus u sp world unmarshal = (none, some b)) ∧
      (∀ (b : String) (s : OPcacheStatus),
        world ⟨u.Scheme, if u.Scheme = "unix" then u.Path else u.Host,
               [("SCRIPT_FILENAME", sp)], none⟩ = FCGIResult.response b →
        unmarshal b = some s →
        getOpcacheStatus u sp world unmarshal = (some s, none)) := by
  intro u sp world unmarshal
  refine ⟨?_, ?_, ?_, ?_, ?_, ?_⟩
  · rw [getOpcacheStatus_eq]
    cases world ⟨u.Scheme, if u.Scheme = "unix" then u.Path else u.Host,
                 [("SCRIPT_FILENAME", sp)], none⟩ with
    | dialError m => simp
    | requestError m => simp
    | readError m => simp
    | response b =>
      rcases hb : unmarshal b with _ | s
      · simp [hb]
      · simp [hb]
  · intro m h; rw [getOpcacheStatus_eq, h]
  · intro m h; rw [getOpcacheStatus_eq, h]
  · intro m h; rw [getOpcacheStatus_eq, h]
  · intro b h hb; rw [getOpcacheStatus_eq, h]; simp only [hb]
  · intro b s h hb; rw [getOpcacheStatus_eq, h]; simp only [hb]

/-- Witness for C5: a non-JSON body `oops` comes back verbatim as the error,
with no snapshot. -/
theorem getOpcacheStatus_all_or_nothing_witness :
    ((fun _ : FCGIRequest => FCGIResult.response "oops")
        ⟨exampleURL.Scheme,
         if exampleURL.Scheme = "unix" then exampleURL.Path else exampleURL.Host,
         [("SCRIPT_FILENAME", "/s")], none⟩
      = FCGIResult.response "oops") ∧
    ((fun _ : String => (none : Option OPcacheStatus)) "oops" = none) ∧
    getOpcacheStatus exampleURL "/s" (fun _ => FCGIResult.response "oops") (fun _ => none)
      = (none, some "oops") :=
  ⟨rfl, rfl,
    (getOpcacheStatus_all_or_nothing exampleURL "/s"
      (fun _ => FCGIResult.response "oops") (fun _ => none)).2.2.2.2.1 "oops" rfl rfl⟩

/-- C7: for every raw URI and script path, Describe returns exactly 25
descriptors; their fully-qualified names are a fixed, duplicate-free list,
independent of the inputs (and of any network interaction, which Describe
does not take part in), hence identical across repeated calls. -/
theorem describe_fixed_25_descriptors :
    ∀ (rawUri scriptPath : String),
      (Describe (NewExporter rawUri scriptPath).1).length = 25 ∧
      (Describe (NewExporter rawUri scriptPath).1).map Desc.fqName
        = [ "opcache_enabled", "opcache_cache_full", "opcache_restart_pending",
            "opcache_restart_in_progress", "opcache_memory_usage_used_memory",
            "opcache_memory_usage_free_memory", "opcache_memory_usage_wasted_memory",
            "opcache_memory_usage_current_wasted_percentage",
            "opcache_interned_strings_usage_buffer_size",
            "opcache_interned_strings_usage_used_memory",
            "opcache_interned_strings_usage_free_memory",
            "opcache_interned_strings_usage_number_of_strings",
            "opcache_statistics_num_cached_scripts", "opcache_statistics_num_cached_keys",
            "opcache_statistics_max_cached_keys", "opcache_statistics_hits",
            "opcache_statistics_start_time", "opcache_statistics_last_restart_time",
            "opcache_statistics_oom_restarts", "opcache_statistics_hash_restarts",
            "opcache_statistics_manual_restarts", "opcache_statistics_misses",
            "opcache_statistics_blacklist_misses",
            "opcache_statistics_blacklist_miss_ratio",
            "opcache_statistics_hit_rate" ] ∧
      ((Describe (NewExporter rawUri scriptPath).1).map Desc.fqName).Nodup := by
  intro raw sp
  have hmap : (Describe (NewExporter raw sp).1).map Desc.fqName
      = [ "opcache_enabled", "opcache_cache_full", "opcache_restart_pending",
          "opcache_restart_in_progress", "opcache_memory_usage_used_memory",
          "opcache_memory_usage_free_memory", "opcache_memory_usage_wasted_memory",
          "opcache_memory_usage_current_wasted_percentage",
          "opcache_interned_strings_usage_buffer_size",
          "opcache_interned_strings_usage_used_memory",
          "opcache_interned_strings_usage_free_memory",
          "opcache_interned_strings_usage_number_of_strings",
          "opcache_statistics_num_cached_scripts", "opcache_statistics_num_cached_keys",
          "opcache_statistics_max_cached_keys", "opcache_statistics_hits",
          "opcache_statistics_start_time", "opcache_statistics_last_restart_time",
          "opcache_statistics_oom_restarts", "opcache_statistics_hash_restarts",
          "opcache_statistics_manual_restarts", "opcache_statistics_misses",
          "opcache_statistics_blacklist_misses",
          "opcache_statistics_blacklist_miss_ratio",
          "opcache_statistics_hit_rate" ] := rfl
  exact ⟨rfl, hmap, by rw [hmap]; decide⟩

/-- C8: the whole outcome of getOpcacheStatus depends on the network world
only through its answer to one single FastCGI request, whose dial network is
the URI scheme, whose dial address is the URI path for the `unix` scheme and
the URI host otherwise, whose parameter environment is exactly the one entry
`SCRIPT_FILENAME = scriptPath`, and which carries no request body. -/
theorem getOpcacheStatus_single_request :
    ∀ (u : URL) (sp : String) (w₁ w₂ : FCGIRequest → FCGIResult)
      (unmarshal : String → Option OPcacheStatus),
      w₁ ⟨u.Scheme, if u.Scheme = "unix" then u.Path else u.Host,
          [("SCRIPT_FILENAME", sp)], none⟩
        = w₂ ⟨u.Scheme, if u.Scheme = "unix" then u.Path else u.Host,
              [("SCRIPT_FILENAME", sp)], none⟩ →
      getOpcacheStatus u sp w₁ unmarshal = getOpcacheStatus u sp w₂ unmarshal := by
  intro u sp w₁ w₂ unmarshal h
  rw [getOpcacheStatus_eq, getOpcacheStatus_eq, h]

/-- A world that only answers requests dialed on the `tcp` network. -/
def tcpOnlyWorld : FCGIRequest → FCGIResult :=
  fun r => if r.network = "tcp" then FCGIResult.response "\x7b\x7d" else FCGIResult.dialError "not tcp"

/-- Witness for C8: two worlds agreeing on the single request of the default
target produce identical outcomes, although they differ elsewhere. -/
theorem getOpcacheStatus_single_request_witness :
    (zeroWorld ⟨exampleURL.Scheme,
        if exampleURL.Scheme = "unix" then exampleURL.Path else exampleURL.Host,
        [("SCRIPT_FILENAME", "/s")], none⟩
      = tcpOnlyWorld ⟨exampleURL.Scheme,
          if exampleURL.Scheme = "unix" then exampleURL.Path else exampleURL.Host,
          [("SCRIPT_FILENAME", "/s")], none⟩) ∧
    getOpcacheStatus exampleURL "/s" zeroWorld zeroUnmarshal
      = getOpcacheStatus exampleURL "/s" tcpOnlyWorld zeroUnmarshal :=
  ⟨by decide,
    getOpcacheStatus_single_request exampleURL "/s" zeroWorld tcpOnlyWorld
      zeroUnmarshal (by decide)⟩

/-- C9: the emitted sample list is a pure function of the snapshot the poll
yields: two Collect calls on the same exporter whose polls agree on the
returned snapshot and on whether they failed (a failure is substituted by the
same all-zero snapshot in both) emit exactly the same samples, whatever the
two worlds and decoders did otherwise. -/
theorem collect_values_pure_in_snapshot :
    ∀ (e : Exporter) (u : URL) (w₁ w₂ : FCGIRequest → FCGIResult)
      (un₁ un₂ : String → Option OPcacheStatus)
      (o₁ o₂ : List ConstMetric × List String),
      e.uri = some u →
      Collect e w₁ un₁ = some o₁ →
      Collect e w₂ un₂ = some o₂ →
      (getOpcacheStatus u e.scriptPath w₁ un₁).1
        = (getOpcacheStatus u e.scriptPath w₂ un₂).1 →
      (getOpcacheStatus u e.scriptPath w₁ un₁).2.isSome
        = (getOpcacheStatus u e.scriptPath w₂ un₂).2.isSome →
      o₁.1 = o₂.1 := by
  intro e u w₁ w₂ un₁ un₂ o₁ o₂ hu h₁ h₂ hsnap herr
  rw [collect_eq_of_uri e u w₁ un₁ hu] at h₁
  rw [collect_eq_of_uri e u w₂ un₂ hu] at h₂
  rcases hp₁ : getOpcacheStatus u e.scriptPath w₁ un₁ with ⟨st₁, er₁⟩
  rcases hp₂ : getOpcacheStatus u e.scriptPath w₂ un₂ with ⟨st₂, er₂⟩
  rw [hp₁] at h₁ hsnap herr
  rw [hp₂] at h₂ hsnap herr
  cases st₁ <;> cases st₂ <;> cases er₁ <;> cases er₂ <;> simp_all <;>
    (subst h₁; subst h₂; rfl)

/-- Witness for C9 at the default target with two identical successful polls. -/
theorem collect_values_pure_in_snapshot_witness :
    exampleExporter.uri = some exampleURL ∧
    Collect exampleExporter zeroWorld zeroUnmarshal
      = some (collectSamples exampleExporter zeroOPcacheStatus, []) ∧
    (collectSamples exampleExporter zeroOPcacheStatus, ([] : List String)).1
      = (collectSamples exampleExporter zeroOPcacheStatus, ([] : List String)).1 :=
  ⟨by decide, by decide,
    collect_values_pure_in_snapshot exampleExporter exampleURL zeroWorld zeroWorld
      zeroUnmarshal zeroUnmarshal
      (collectSamples exampleExporter zeroOPcacheStatus, ([] : List String))
      (collectSamples exampleExporter zeroOPcacheStatus, ([] : List String))
      (by decide) (by decide) (by decide) rfl rfl⟩

/-- C10: for every input string, NewExporter yields a fully constructed
exporter — 25 descriptors, all carrying the `fcgi_uri` label with the
normalized URI, and the given script path — and when URI parsing fails the
error is merely returned alongside, leaving the exporter built but with an
absent (Go nil) URI. -/
theorem newExporter_total_despite_parse_error :
    ∀ (rawUri scriptPath : String),
      (Describe (NewExporter rawUri scriptPath).1).length = 25 ∧
      (NewExporter rawUri scriptPath).1.scriptPath = scriptPath ∧
      ((Describe (NewExporter rawUri scriptPath).1).map Desc.constLabels
        = List.replicate 25 [("fcgi_uri",
            if containsSchemeSep rawUri then rawUri else "tcp://" ++ rawUri)]) ∧
      ((NewExporter rawUri scriptPath).2.isSome →
        (NewExporter rawUri scriptPath).1.uri = none) := by
  intro raw sp
  refine ⟨rfl, rfl, rfl, ?_⟩
  intro hsome
  have huri : (NewExporter raw sp).1.uri
      = exceptURL (urlParse (if containsSchemeSep raw then raw else "tcp://" ++ raw)) := rfl
  have herr : (NewExporter raw sp).2
      = exceptError (urlParse (if containsSchemeSep raw then raw else "tcp://" ++ raw)) := rfl
  cases hp : urlParse (if containsSchemeSep raw then raw else "tcp://" ++ raw) with
  | error m => rw [huri, hp]; rfl
  | ok v =>
    rw [herr, hp] at hsome
    simp [exceptError] at hsome

/-- Witness for C10: `tcp://bad host` fails to parse, yet the exporter is
fully built, with an absent URI and the error returned alongside. -/
theorem newExporter_total_despite_parse_error_witness :
    ((NewExporter "tcp://bad host" "/s").2.isSome = true) ∧
    (NewExporter "tcp://bad host" "/s").1.uri = none ∧
    (Describe (NewExporter "tcp://bad host" "/s").1).length = 25 :=
  ⟨by decide,
    (newExporter_total_despite_parse_error "tcp://bad host" "/s").2.2.2 (by decide),
    (newExporter_total_despite_parse_error "tcp://bad host" "/s").1⟩
